import Mathlib

/-!
# Verification of the virtual-browser frame-broadcast and transport-adaptation layer

Shallow embedding of `src/backend/app/browser_controller.py`,
`src/backend/app/streaming.py` and `src/backend/app/main.py`.

Modelling conventions:
* a compressed frame (`bytes` in Python) is a `List Nat`;
* an `asyncio.Queue(maxsize=1)` is an `Option Frame` (its single slot);
* Python `set()` objects holding queue/peer-connection objects are lists of
  numeric identities (object identity) paired with their state; `set.add` /
  `set.discard` become append / filter;
* awaited external side effects (Playwright calls, `pc.close()`, sends on a
  websocket) are recorded as explicit effect lists rather than performed;
* JSON values arriving from the transport are the closed type `JVal`;
  Python truthiness (`if key:`) is the `truthy` predicate.
-/

/-- One compressed image frame: an immutable byte buffer
(`base64.b64decode(data)` in `_on_screencast_frame`). -/
abbrev Frame := List Nat

/-- A JSON-ish value as it appears in decoded input-event messages. -/
inductive JVal where
  | num (n : Int)
  | str (s : String)
  | bool (b : Bool)
deriving DecidableEq, Repr

/-- A decoded JSON object (the `message` dict of `receive_inputs` /
`handle_input`'s `params`): an association list keyed by field name. -/
abbrev Params := List (String × JVal)

/-- Python truthiness of a JSON value (`if key:`, `if width and height:`). -/
def truthy : JVal → Bool
  | .num n => n ≠ 0
  | .str s => s ≠ ""
  | .bool b => b

/-- Truthiness of `dict.get(k)`: `None` (absent key) is falsy. -/
def truthyOpt : Option JVal → Bool
  | some v => truthy v
  | none => false

/-- The observable browser-side actions issued by `handle_input`
(`browser_controller.py` 86-181): each constructor is one awaited
Playwright call on `self.page`. -/
inductive PageEffect where
  | mouseMove (x y : JVal)
  | mouseClick (x y : JVal) (button : String)
  | mouseDblClick (x y : JVal)
  | wheel (dx dy : JVal)
  | keyPress (combo : String)
  | typeText (t : String)
  | goBack
  | goForward
  | reloadPage
  | setViewport (w h : JVal)
  | gotoUrl (url : String)
deriving DecidableEq, Repr

/-- State of `BrowserManager` (`browser_controller.py` 9-16).
`playwright`, `browser`, `context`, `page` are handles that are `None`
until `start()`; `listeners` is the set of capacity-1 queues, as
(object identity, slot) pairs; `nextId` supplies fresh queue identities
(fresh object allocation); `last_frame` mirrors `self.last_frame`. -/
structure BrowserManager where
  playwrightHandle : Option Unit
  browserHandle : Option Unit
  contextHandle : Option Unit
  page : Option Unit
  listeners : List (Nat × Option Frame)
  nextId : Nat
  last_frame : Option Frame
deriving DecidableEq, Repr

/-- `BrowserManager.__init__`: every handle `None`, empty listener set. -/
def bmInit : BrowserManager :=
  { playwrightHandle := none
    browserHandle := none
    contextHandle := none
    page := none
    listeners := []
    nextId := 0
    last_frame := none }

/-- `add_listener` (`browser_controller.py` 18-21): allocate a fresh
`asyncio.Queue(maxsize=1)` (empty slot), add it to the set, return it. -/
def add_listener (s : BrowserManager) : Nat × BrowserManager :=
  (s.nextId,
   { s with listeners := s.listeners ++ [(s.nextId, none)]
            nextId := s.nextId + 1 })

/-- `remove_listener` (`browser_controller.py` 23-24):
`self.listeners.discard(queue)` — remove if present, never an error. -/
def remove_listener (s : BrowserManager) (q : Nat) : BrowserManager :=
  { s with listeners := s.listeners.filter (fun l => l.1 ≠ q) }

/-- The per-queue body of the broadcast loop (`browser_controller.py` 61-69):
`if queue.full(): queue.get_nowait()` (discard the occupant), then
`queue.put_nowait(frame)`. On a capacity-1 queue both branches leave the
new frame as the sole occupant. -/
def pushFrame (slot : Option Frame) (f : Frame) : Option Frame :=
  match slot with
  | some _ => some f
  | none => some f

/-- The broadcast part of `_on_screencast_frame` (`browser_controller.py`
57-69): record `self.last_frame` and push it to every queue in
`list(self.listeners)` via the drop-oldest loop body. -/
def publish (s : BrowserManager) (f : Frame) : BrowserManager :=
  { s with last_frame := some f
           listeners := s.listeners.map (fun l => (l.1, pushFrame l.2 f)) }

/-- `_on_screencast_frame` (`browser_controller.py` 52-69) with the frame
payload already base64-decoded: `if data:` — a missing or empty payload is
falsy and nothing is broadcast. The trailing `screencastFrameAck` is an
external acknowledgement with no effect on this state. -/
def on_screencast_frame (s : BrowserManager) (data : Option Frame) : BrowserManager :=
  match data with
  | some f => if f = [] then s else publish s f
  | none => s

/-- The value a listener's next `queue.get()` returns (the current occupant
of its single slot), or `none` if the queue is absent or empty (in which
case the reader suspends). -/
def readListener (s : BrowserManager) (q : Nat) : Option Frame :=
  match s.listeners.lookup q with
  | some slot => slot
  | none => none

/-- `BrowserManager.stop` external effects (`browser_controller.py` 77-84). -/
inductive CloseEffect where
  | closeContext
  | closeBrowser
  | stopPlaywright
  | closePc (id : Nat)
deriving DecidableEq, Repr

/-- `stop` (`browser_controller.py` 77-84): each close is guarded by an
`if` on the handle; the attributes themselves are not reassigned. Returns
the (unchanged) state and the list of close calls actually awaited. -/
def BrowserManager.stop (s : BrowserManager) : BrowserManager × List CloseEffect :=
  (s,
   (if s.contextHandle.isSome then [CloseEffect.closeContext] else []) ++
   (if s.browserHandle.isSome then [CloseEffect.closeBrowser] else []) ++
   (if s.playwrightHandle.isSome then [CloseEffect.stopPlaywright] else []))

/-- The dispatch body of `handle_input` (`browser_controller.py` 90-181),
reached only when `self.page` is set: runtime string branching on the
action name, `params.get` lookups with `is not None` / truthiness guards
exactly as in the source. -/
def handle_input_dispatch (action : String) (params : Params) : List PageEffect :=
  if action = "mousemove" then
    match params.lookup "x", params.lookup "y" with
    | some x, some y => [.mouseMove x y]
    | _, _ => []
  else if action = "click" then
    match params.lookup "x", params.lookup "y" with
    | some x, some y => [.mouseClick x y "left"]
    | _, _ => []
  else if action = "dblclick" then
    match params.lookup "x", params.lookup "y" with
    | some x, some y => [.mouseDblClick x y]
    | _, _ => []
  else if action = "rightclick" then
    match params.lookup "x", params.lookup "y" with
    | some x, some y => [.mouseClick x y "right"]
    | _, _ => []
  else if action = "scroll" then
    match params.lookup "x", params.lookup "y" with
    | some x, some y =>
        [.mouseMove x y,
         .wheel ((params.lookup "deltaX").getD (.num 0))
                ((params.lookup "deltaY").getD (.num 0))]
    | _, _ => []
  else if action = "keydown" then
    match params.lookup "key" with
    | some (.str key) =>
        if key = "" then []
        else
          let modifiers :=
            (if truthyOpt (params.lookup "ctrlKey") then ["Control"] else []) ++
            (if truthyOpt (params.lookup "shiftKey") then ["Shift"] else []) ++
            (if truthyOpt (params.lookup "altKey") then ["Alt"] else []) ++
            (if truthyOpt (params.lookup "metaKey") then ["Meta"] else [])
          if modifiers ≠ [] ∧ key ∉ ["Control", "Shift", "Alt", "Meta"] then
            [.keyPress (String.intercalate "+" (modifiers ++ [key]))]
          else
            [.keyPress key]
    | _ => []
  else if action = "keypress" then
    match params.lookup "key" with
    | some (.str key) => if key = "" then [] else [.keyPress key]
    | _ => []
  else if action = "type" then
    match params.lookup "text" with
    | some (.str t) => if t = "" then [] else [.typeText t]
    | _ => []
  else if action = "back" then [.goBack]
  else if action = "forward" then [.goForward]
  else if action = "reload" then [.reloadPage]
  else if action = "resize" then
    match params.lookup "width", params.lookup "height" with
    | some w, some h => if truthy w ∧ truthy h then [.setViewport w h] else []
    | _, _ => []
  else if action = "navigate" then
    match params.lookup "url" with
    | some (.str url) =>
        if url = "" then []
        else if url.startsWith "http://" ∨ url.startsWith "https://" then
          [.gotoUrl url]
        else
          [.gotoUrl ("https://" ++ url)]
    | _ => []
  else []

/-- `handle_input` (`browser_controller.py` 86-181): `if not self.page:
return` — with no active page the call returns immediately, issuing no
browser action. `handle_input` never mutates `BrowserManager` state, so
its result is just the list of issued page effects. -/
def handle_input (s : BrowserManager) (action : String) (params : Params) : List PageEffect :=
  match s.page with
  | none => []
  | some _ => handle_input_dispatch action params

/-! ## Media-Track Adapter (`streaming.py` 12-70) -/

/-- A decoded raw video frame from `container.decode(video=0)`,
identified opaquely. -/
abbrev RawImage := Nat

/-- The outgoing video frame returned by `recv`: the decoded image with
the presentation timestamp stamped on it (`frame.pts = pts`). -/
structure VideoFrame where
  image : RawImage
  pts : Nat
deriving DecidableEq, Repr

/-- State of a `BrowserVideoTrack` (`streaming.py` 17-34): the private
capacity-1 queue, the `_ended` flag, and the presentation clock state of
the inherited `VideoStreamTrack` (`_timestamp`, absent before the first
`next_timestamp` call). -/
structure TrackState where
  queue : Option Frame
  ended : Bool
  timestamp : Option Nat
deriving DecidableEq, Repr

/-- `BrowserVideoTrack.__init__` (`streaming.py` 17-21): empty queue, not
ended, clock not yet started. -/
def trackInit : TrackState :=
  { queue := none, ended := false, timestamp := none }

/-- Modelled from the spec: the presentation clock
(`VideoStreamTrack.next_timestamp`, provided by the media library, not
part of these sources) is "a monotonically increasing counter advanced
once per frame ... at a fixed nominal rate": each call after the first
advances the stored counter by one fixed video-clock increment
(20 ms at a 90 kHz clock, i.e. 1800 ticks) and returns it; the first
call starts the counter at 0. -/
def next_timestamp (t : Option Nat) : Nat × Option Nat :=
  match t with
  | none => (0, some 0)
  | some ts => (ts + 1800, some (ts + 1800))

/-- `BrowserVideoTrack.recv` (`streaming.py` 36-66). `decode` stands for
`av.open` + `container.decode(video=0)` on the compressed payload:
`.error` is a raised decode exception (caught by the `except` clause,
logged, `None` returned), `.ok l` is the decoded frame list (empty list
falls through to `return None`). `jpeg` is the frame obtained by
`await self.queue.get()` — the call suspends until one is available, so
one frame is consumed per non-ended invocation; the queue slot is left
empty by the `get`. If `self._ended` the call returns `None` at once,
before touching the clock. -/
def recv (decode : Frame → Except Unit (List RawImage)) (tr : TrackState)
    (jpeg : Frame) : Option VideoFrame × TrackState :=
  if tr.ended then (none, tr)
  else
    let pts := (next_timestamp tr.timestamp).1
    let tr2 : TrackState := { tr with timestamp := (next_timestamp tr.timestamp).2
                                      queue := none }
    match decode jpeg with
    | .error _ => (none, tr2)
    | .ok [] => (none, tr2)
    | .ok (img :: _) => (some { image := img, pts := pts }, tr2)

/-- A run of successive `recv` calls on one track, fed the successive
frames its `queue.get()` returns; collects the frames actually produced
(the `None` cycles produce nothing). -/
def recvRun (decode : Frame → Except Unit (List RawImage)) :
    TrackState → List Frame → List VideoFrame × TrackState
  | tr, [] => ([], tr)
  | tr, j :: js =>
      let r := recv decode tr j
      let rest := recvRun decode r.2 js
      (r.1.toList ++ rest.1, rest.2)

/-- `BrowserVideoTrack.on_ended` (`streaming.py` 68-70): sets `_ended`;
the global `frame_callback` reset is modelled at system level. -/
def on_ended (tr : TrackState) : TrackState :=
  { tr with ended := true }

/-! ## Session manager (`streaming.py` 72-119) -/

/-- State of `RTCManager` (`streaming.py` 72-74): the set of active
peer connections, by object identity. -/
structure RTCManager where
  pcs : List Nat
deriving DecidableEq, Repr

/-- `RTCManager.__init__`: empty active set. -/
def rtcInit : RTCManager := { pcs := [] }

/-- `RTCManager.shutdown` (`streaming.py` 114-117): awaits `pc.close()`
for every active connection, then clears the set. Returns the new state
and the close calls awaited. -/
def RTCManager.shutdown (s : RTCManager) : RTCManager × List CloseEffect :=
  ({ pcs := [] }, s.pcs.map CloseEffect.closePc)

/-- Whole-process state relevant to frame delivery and session teardown:
the singleton `browser_manager`, the dynamically assigned
`browser_manager.frame_callback` attribute (`streaming.py` 34: set to the
track's `on_frame` closure; `None`/unset otherwise), the single
`BrowserVideoTrack` the simple implementation supports, and the
`RTCManager` active set plus the `pc.close()` calls issued so far. -/
structure SysState where
  bm : BrowserManager
  frame_callback_set : Bool
  track : Option TrackState
  pcs : List Nat
  closedPcs : List Nat
deriving DecidableEq, Repr

/-- Initial process state: fresh singletons, no callback, no track. -/
def sysInit : SysState :=
  { bm := bmInit, frame_callback_set := false, track := none
    pcs := [], closedPcs := [] }

/-- `BrowserVideoTrack.__init__` at system level (`streaming.py` 17-34):
allocates the track's empty queue and assigns
`browser_manager.frame_callback = on_frame`. It does NOT call
`add_listener`: `browser_manager.listeners` is untouched. -/
def newBrowserVideoTrack (sys : SysState) : SysState :=
  { sys with track := some trackInit, frame_callback_set := true }

/-- `RTCManager.handle_offer` (`streaming.py` 76-112), state effects only:
`pc = RTCPeerConnection(); self.pcs.add(pc);
pc.addTrack(BrowserVideoTrack())` — adds the connection to the active set
and constructs the track. The SDP negotiation itself is the external
collaborator's. -/
def handle_offer (sys : SysState) (pcId : Nat) : SysState :=
  newBrowserVideoTrack { sys with pcs := pcId :: sys.pcs }

/-- `_on_screencast_frame` at system level: the broadcast loop iterates
over `browser_manager.listeners` only; nothing in
`browser_controller.py` ever reads or invokes `frame_callback`, so the
track's queue is not touched by a published frame. -/
def publishSys (sys : SysState) (f : Frame) : SysState :=
  { sys with bm := publish sys.bm f }

/-- `on_connectionstatechange` (`streaming.py` 82-90): when
`pc.connectionState` is `"failed"` or `"closed"`, await `pc.close()` and
`self.pcs.discard(pc)`; otherwise only log. Neither branch touches
`browser_manager.listeners`, the track, or `frame_callback`. -/
def on_connectionstatechange (sys : SysState) (pcId : Nat) (st : String) : SysState :=
  if st = "failed" ∨ st = "closed" then
    { sys with closedPcs := pcId :: sys.closedPcs
               pcs := sys.pcs.filter (fun i => i ≠ pcId) }
  else sys

/-! ## Byte-stream adapter (`main.py` 76-115) -/

/-- One iteration's input to the `receive_inputs` loop body (`main.py`
90-99): either `websocket.receive_text()` yielded a text whose
`json.loads` outcome is given (`none` = raised `JSONDecodeError`), or
the receive itself raised (client disconnected / transport error). -/
inductive WsRecv where
  | text (decoded : Option Params)
  | closed
deriving DecidableEq, Repr

/-- `message.get("action")` with the source's `if action:` truthiness
guard: the action value if present and truthy, else `none`. -/
def getAction (m : Params) : Option JVal :=
  match m.lookup "action" with
  | some v => if truthy v then some v else none
  | none => none

/-- `receive_inputs` (`main.py` 90-99) over a list of successive receive
outcomes: returns the `(action, message)` pairs forwarded to
`handle_input`, and whether the loop has terminated (`break` reached).
The single `try/except Exception: break` covers the receive, the JSON
decode and the dispatch: a `json.loads` failure breaks the loop exactly
like a transport error, while a decoded message whose `action` is
missing or falsy merely skips the dispatch and continues. An exhausted
input list means the loop is still suspended in `receive_text`. -/
def receive_inputs : List WsRecv → List (JVal × Params) × Bool
  | [] => ([], false)
  | .closed :: _ => ([], true)
  | .text none :: _ => ([], true)
  | .text (some m) :: rest =>
      let r := receive_inputs rest
      match getAction m with
      | some a => ((a, m) :: r.1, r.2)
      | none => r

/-- Termination of `send_frames` (`main.py` 81-88) over the outcomes of
its successive `websocket.send_bytes` calls (`true` = send succeeded):
the loop runs forever (suspending in `queue.get()`) and terminates only
when a send raises, caught by `except Exception: break`. -/
def sendLoopTerminated (sends : List Bool) : Bool :=
  sends.contains false

/-- Observable cleanup outcome of one `websocket_endpoint` activation. -/
structure WsEndpointResult where
  bm : BrowserManager
  bothCancelled : Bool
  unregisterCalls : Nat
  closeCalled : Bool
deriving DecidableEq, Repr

/-- `websocket_endpoint` (`main.py` 76-115): after `accept()` it obtains
a queue via `add_listener`, starts both loops, and awaits
`asyncio.gather(sender_task, receiver_task)`. Neither loop body lets an
exception escape (each breaks instead), so the `gather` — and with it
the `finally` cleanup (cancel both tasks, `remove_listener(queue)`,
`close()` under its own `except`) — completes only once BOTH loops have
terminated. While either loop is still running the endpoint coroutine
stays suspended in `gather` and no cleanup has happened. -/
def websocket_endpoint (s : BrowserManager) (sends : List Bool)
    (msgs : List WsRecv) : WsEndpointResult :=
  let q := (add_listener s).1
  let s1 := (add_listener s).2
  if sendLoopTerminated sends && (receive_inputs msgs).2 then
    { bm := remove_listener s1 q
      bothCancelled := true
      unregisterCalls := 1
      closeCalled := true }
  else
    { bm := s1, bothCancelled := false, unregisterCalls := 0, closeCalled := false }

/-! ## Helper lemmas on the listener registry -/

/-- The drop-oldest loop body always leaves exactly the new frame in the
slot, whatever occupied it before. -/
theorem pushFrame_eq (slot : Option Frame) (f : Frame) : pushFrame slot f = some f := by
  cases slot <;> rfl

/-- `publish` preserves the set of registered queue identities. -/
theorem publish_keys (s : BrowserManager) (f : Frame) :
    (publish s f).listeners.map Prod.fst = s.listeners.map Prod.fst := by
  simp [publish]

/-- Looking up any registered key after the broadcast map finds the slot
freshly filled with the published frame. -/
theorem lookup_push (f : Frame) :
    ∀ (l : List (Nat × Option Frame)) (q : Nat), q ∈ l.map Prod.fst →
      (l.map (fun p => (p.1, pushFrame p.2 f))).lookup q = some (some f)
  | [], q, h => by simp at h
  | (k, v) :: tl, q, h => by
      simp only [List.map_cons, List.mem_cons] at h
      simp only [List.map_cons, List.lookup]
      cases hqk : q == k
      · exact lookup_push f tl q (h.resolve_left (ne_of_beq_false hqk))
      · simp [pushFrame_eq]

/-- After `publish s f`, every registered listener's next read yields `f`. -/
theorem readListener_publish (s : BrowserManager) (f : Frame) (q : Nat)
    (hq : q ∈ s.listeners.map Prod.fst) :
    readListener (publish s f) q = some f := by
  unfold readListener
  rw [show (publish s f).listeners = s.listeners.map (fun p => (p.1, pushFrame p.2 f)) from rfl,
      lookup_push f s.listeners q hq]

/-- C1: `publish` delivers to every currently registered capacity-1
channel with drop-oldest semantics — after frames `f1` then `f2` are
published before a listener reads, the listener's next read yields `f2`,
and never `f1` when the two frames differ. -/
theorem publish_drop_oldest (s : BrowserManager) (f1 f2 : Frame) (q : Nat)
    (hq : q ∈ s.listeners.map Prod.fst) :
    readListener (publish (publish s f1) f2) q = some f2 ∧
    (f1 ≠ f2 → readListener (publish (publish s f1) f2) q ≠ some f1) := by
  have hq2 : q ∈ (publish s f1).listeners.map Prod.fst := by
    rw [publish_keys]; exact hq
  have h2 := readListener_publish (publish s f1) f2 q hq2
  refine ⟨h2, fun hne hcontra => hne ?_⟩
  rw [h2] at hcontra
  exact (Option.some.injEq _ _ ▸ hcontra).symm ▸ rfl

/-- Witness for C1 at a concrete state: one registered listener, frames
`[1]` then `[2]` published before it reads. -/
theorem publish_drop_oldest_witness :
    readListener (publish (publish (add_listener bmInit).2 [1]) [2]) 0 = some [2] ∧
    ([1] ≠ [2] →
      readListener (publish (publish (add_listener bmInit).2 [1]) [2]) 0 ≠ some [1]) :=
  publish_drop_oldest (add_listener bmInit).2 [1] [2] 0 (by decide)

/-- C8: `remove_listener` (`set.discard`) is idempotent and total —
removing the same handle twice leaves the same registry as removing it
once, and removing a handle that was never registered is a no-op; no
error arises in either case (the operation is a total function). -/
theorem remove_listener_idempotent (s : BrowserManager) (q : Nat) :
    remove_listener (remove_listener s q) q = remove_listener s q ∧
    (q ∉ s.listeners.map Prod.fst → remove_listener s q = s) := by
  constructor
  · simp only [remove_listener, List.filter_filter]
    congr 2
    funext a
    exact Bool.and_self _
  · intro h
    have heq : s.listeners.filter (fun l => l.1 ≠ q) = s.listeners := by
      apply List.filter_eq_self.mpr
      intro a ha
      have hne : a.1 ≠ q := fun e => h (e ▸ List.mem_map_of_mem Prod.fst ha)
      simp [hne]
    unfold remove_listener
    rw [heq]

/-- Witness for C8 at a concrete state: a registry holding one listener,
removing the unknown handle 5 twice. -/
theorem remove_listener_idempotent_witness :
    remove_listener (remove_listener (add_listener bmInit).2 5) 5 =
      remove_listener (add_listener bmInit).2 5 ∧
    (5 ∉ (add_listener bmInit).2.listeners.map Prod.fst →
      remove_listener (add_listener bmInit).2 5 = (add_listener bmInit).2) :=
  remove_listener_idempotent (add_listener bmInit).2 5

/-- C9: with no browser active (`context`, `browser`, `playwright` all
`None`) `stop()` is an idempotent no-op issuing no close calls and
raising no error, and with no active peer connection `shutdown()` is an
idempotent no-op likewise — including when invoked repeatedly. -/
theorem stop_shutdown_inactive_noop (s : BrowserManager) (r : RTCManager)
    (hc : s.contextHandle = none) (hb : s.browserHandle = none)
    (hp : s.playwrightHandle = none) (hr : r.pcs = []) :
    BrowserManager.stop s = (s, []) ∧
    BrowserManager.stop (BrowserManager.stop s).1 = (s, []) ∧
    RTCManager.shutdown r = (r, []) ∧
    RTCManager.shutdown (RTCManager.shutdown r).1 = (r, []) := by
  have h1 : BrowserManager.stop s = (s, []) := by
    simp [BrowserManager.stop, hc, hb, hp]
  have h2 : RTCManager.shutdown r = (r, []) := by
    obtain ⟨pcs⟩ := r
    simp only [RTCManager.mk.injEq] at hr
    subst hr
    rfl
  have hs1 : (BrowserManager.stop s).1 = s := by rw [h1]
  have hr1 : (RTCManager.shutdown r).1 = r := by rw [h2]
  exact ⟨h1, by rw [hs1]; exact h1, h2, by rw [hr1]; exact h2⟩

/-- Witness for C9: the freshly initialised singletons. -/
theorem stop_shutdown_inactive_noop_witness :
    BrowserManager.stop bmInit = (bmInit, []) ∧
    BrowserManager.stop (BrowserManager.stop bmInit).1 = (bmInit, []) ∧
    RTCManager.shutdown rtcInit = (rtcInit, []) ∧
    RTCManager.shutdown (RTCManager.shutdown rtcInit).1 = (rtcInit, []) :=
  stop_shutdown_inactive_noop bmInit rtcInit rfl rfl rfl rfl

/-- C10: invoking `handle_input` while no browser page is active
(`self.page is None`) returns immediately: no browser action is issued,
no error raised (the function is total), and — `handle_input` never
assigns any attribute — no state changes. -/
theorem handle_input_no_page (s : BrowserManager) (a : String) (p : Params)
    (h : s.page = none) : handle_input s a p = [] := by
  unfold handle_input
  rw [h]

/-- Witness for C10: a click event against the initial (page-less)
manager. -/
theorem handle_input_no_page_witness :
    handle_input bmInit "click" [("x", JVal.num 1), ("y", JVal.num 2)] = [] :=
  handle_input_no_page bmInit "click" [("x", JVal.num 1), ("y", JVal.num 2)] rfl

/-- A well-formed click event message, for concrete evaluations. -/
def clickMsg : Params := [("action", JVal.str "click"), ("x", JVal.num 1), ("y", JVal.num 2)]

/-- Counterexample to C2: on an active connection, one text message whose
JSON decode fails (`WsRecv.text none`) terminates the receive loop
(`break` in the shared `except` clause), so the valid click message
following it is never processed — whereas alone that click message would
be forwarded. This refutes "malformed messages are ignored and subsequent
valid messages are still processed; only a transport-level failure
terminates the loop". -/
theorem receive_inputs_malformed_cex :
    (receive_inputs [WsRecv.text none, WsRecv.text (some clickMsg)]).2 = true ∧
    (receive_inputs [WsRecv.text none, WsRecv.text (some clickMsg)]).1 = [] ∧
    receive_inputs [WsRecv.text (some clickMsg)] =
      ([(JVal.str "click", clickMsg)], false) := by
  decide

/-- C2 (amended): a textual message that fails JSON decoding terminates
the receive loop exactly like a transport-level failure; every message
successfully decoded before that point is processed normally (a decoded
message without a truthy `action` field is skipped without terminating
the loop). -/
theorem receive_inputs_amended (ms rest : List WsRecv)
    (hms : ∀ x ∈ ms, ∃ m, x = WsRecv.text (some m)) :
    receive_inputs (ms ++ WsRecv.text none :: rest) =
      ((receive_inputs ms).1, true) := by
  induction ms with
  | nil => rfl
  | cons x tl ih =>
      obtain ⟨m, rfl⟩ := hms x (List.mem_cons_self x tl)
      have ih2 := ih (fun y hy => hms y (List.mem_cons_of_mem _ hy))
      cases h : getAction m <;>
        simp [receive_inputs, ih2, h]

/-- Witness for the amended C2: a `back` event, then a JSON-undecodable
message, then a `reload` event — the `back` event is processed, the loop
terminates at the undecodable message. -/
theorem receive_inputs_amended_witness :
    receive_inputs ([WsRecv.text (some [("action", JVal.str "back")])] ++
        WsRecv.text none :: [WsRecv.text (some [("action", JVal.str "reload")])]) =
      ((receive_inputs [WsRecv.text (some [("action", JVal.str "back")])]).1, true) :=
  receive_inputs_amended _ _ (by
    intro x hx
    rw [List.mem_singleton] at hx
    exact ⟨[("action", JVal.str "back")], hx⟩)

/-- Counterexample to C5: the send loop has terminated (its single
`send_bytes` failed) while the receive loop is still suspended, yet —
because `asyncio.gather` keeps waiting for the receiver — no task is
cancelled, `remove_listener` has not been invoked (the listener is still
registered) and the connection is not closed. This refutes "whenever
either the send loop or the receive loop terminates ... unregister() is
invoked exactly once ... and the connection is closed". -/
theorem websocket_cleanup_cex :
    sendLoopTerminated [false] = true ∧
    (websocket_endpoint bmInit [false] []).unregisterCalls = 0 ∧
    (websocket_endpoint bmInit [false] []).closeCalled = false ∧
    (websocket_endpoint bmInit [false] []).bothCancelled = false ∧
    (websocket_endpoint bmInit [false] []).bm.listeners.length = 1 := by
  decide

/-- C5 (amended): once BOTH loops have terminated (normally, by error, or
by external stop — errors inside either loop are swallowed by its
`break`), the `finally` cleanup runs unconditionally: both tasks are
cancelled, `unregister` is invoked exactly once — removing precisely the
listener this activation registered — and the connection close is
attempted if not already closed. Termination of a single loop does not
by itself trigger cleanup. -/
theorem websocket_cleanup_amended (s : BrowserManager) (sends : List Bool)
    (msgs : List WsRecv) (hs : sendLoopTerminated sends = true)
    (hr : (receive_inputs msgs).2 = true) :
    (websocket_endpoint s sends msgs).bothCancelled = true ∧
    (websocket_endpoint s sends msgs).unregisterCalls = 1 ∧
    (websocket_endpoint s sends msgs).closeCalled = true ∧
    (websocket_endpoint s sends msgs).bm =
      remove_listener (add_listener s).2 (add_listener s).1 := by
  simp [websocket_endpoint, hs, hr]

/-- Witness for the amended C5: a failed send and a transport-closed
receive on the fresh manager. -/
theorem websocket_cleanup_amended_witness :
    (websocket_endpoint bmInit [false] [WsRecv.closed]).bothCancelled = true ∧
    (websocket_endpoint bmInit [false] [WsRecv.closed]).unregisterCalls = 1 ∧
    (websocket_endpoint bmInit [false] [WsRecv.closed]).closeCalled = true ∧
    (websocket_endpoint bmInit [false] [WsRecv.closed]).bm =
      remove_listener (add_listener bmInit).2 (add_listener bmInit).1 :=
  websocket_cleanup_amended bmInit [false] [WsRecv.closed] (by decide) (by decide)

/-- C3 evaluated at its failing input: after `handle_offer` constructs a
session with its `BrowserVideoTrack` and a screencast frame `[1, 2, 3]`
is broadcast, the broadcast did happen (`last_frame` is set) yet the
track is still exactly as constructed — its queue empty — and no
listener channel was ever registered for it (`listeners` is empty):
`BrowserVideoTrack.__init__` assigns `browser_manager.frame_callback`
instead of calling `add_listener`, and nothing in
`browser_controller.py` ever invokes `frame_callback`, so no published
frame can reach the track. -/
theorem track_receives_no_published_frames :
    (publishSys (handle_offer sysInit 0) [1, 2, 3]).bm.last_frame = some [1, 2, 3] ∧
    (publishSys (handle_offer sysInit 0) [1, 2, 3]).track = some trackInit ∧
    (publishSys (handle_offer sysInit 0) [1, 2, 3]).frame_callback_set = true ∧
    (publishSys (handle_offer sysInit 0) [1, 2, 3]).bm.listeners = [] := by
  decide

/-- Counterexample to C4: one byte-stream listener is registered (count
1) and one Session is active; forcing the Session into `failed` removes
it from the active set and closes its transport, but the Broadcaster's
listener count is still 1 — it does not decrease by exactly one — and
the Session's track is still exactly as constructed, not ended. -/
theorem session_teardown_listener_count_cex :
    ((handle_offer { sysInit with bm := (add_listener bmInit).2 } 7).bm.listeners.length
      = 1) ∧
    ((on_connectionstatechange
        (handle_offer { sysInit with bm := (add_listener bmInit).2 } 7) 7
        "failed").bm.listeners.length = 1) ∧
    ((on_connectionstatechange
        (handle_offer { sysInit with bm := (add_listener bmInit).2 } 7) 7
        "failed").pcs = []) ∧
    ((on_connectionstatechange
        (handle_offer { sysInit with bm := (add_listener bmInit).2 } 7) 7
        "failed").track = some trackInit) := by
  decide

/-- C4 (amended): when a Session's connection state reaches `failed` or
`closed`, the Session is removed from the manager's active set and its
transport is closed (`pc.close()` awaited); but the Broadcaster's state
— including its registered-listener count — is unchanged (the
Media-Track Adapter holds no broadcaster registration), and the track is
not ended. -/
theorem session_teardown_amended (sys : SysState) (pcId : Nat) (st : String)
    (h : st = "failed" ∨ st = "closed") :
    (on_connectionstatechange sys pcId st).pcs = sys.pcs.filter (fun i => i ≠ pcId) ∧
    pcId ∈ (on_connectionstatechange sys pcId st).closedPcs ∧
    (on_connectionstatechange sys pcId st).bm = sys.bm ∧
    (on_connectionstatechange sys pcId st).track = sys.track := by
  unfold on_connectionstatechange
  rw [if_pos h]
  exact ⟨rfl, List.mem_cons_self _ _, rfl, rfl⟩

/-- Witness for the amended C4: one active session forced to `failed`. -/
theorem session_teardown_amended_witness :
    (on_connectionstatechange (handle_offer sysInit 3) 3 "failed").pcs =
      (handle_offer sysInit 3).pcs.filter (fun i => i ≠ 3) ∧
    3 ∈ (on_connectionstatechange (handle_offer sysInit 3) 3 "failed").closedPcs ∧
    (on_connectionstatechange (handle_offer sysInit 3) 3 "failed").bm =
      (handle_offer sysInit 3).bm ∧
    (on_connectionstatechange (handle_offer sysInit 3) 3 "failed").track =
      (handle_offer sysInit 3).track :=
  session_teardown_amended (handle_offer sysInit 3) 3 "failed" (Or.inl rfl)

/-! ## Presentation-timestamp lemmas for the Media-Track Adapter -/

/-- An ended track's `recv` returns `None` at once, leaving the state
untouched. -/
theorem recv_ended (decode : Frame → Except Unit (List RawImage)) (tr : TrackState)
    (j : Frame) (h : tr.ended = true) : recv decode tr j = (none, tr) := by
  simp [recv, h]

/-- A non-ended `recv` always advances the presentation clock and leaves
the queue slot empty, whatever the decode outcome. -/
theorem recv_snd_not_ended (decode : Frame → Except Unit (List RawImage))
    (tr : TrackState) (j : Frame) (h : tr.ended = false) :
    (recv decode tr j).2 =
      { tr with timestamp := (next_timestamp tr.timestamp).2, queue := none } := by
  simp only [recv, h, Bool.false_eq_true, if_false]
  cases hd : decode j with
  | error e => rfl
  | ok l => cases l <;> rfl

/-- A frame actually produced by a `recv` call carries exactly the
timestamp computed at the start of that call. -/
theorem recv_produced_pts (decode : Frame → Except Unit (List RawImage))
    (tr : TrackState) (j : Frame) (v : VideoFrame) (h : tr.ended = false)
    (hv : (recv decode tr j).1 = some v) :
    v.pts = (next_timestamp tr.timestamp).1 := by
  simp only [recv, h, Bool.false_eq_true, if_false] at hv
  cases hd : decode j with
  | error e => rw [hd] at hv; simp at hv
  | ok l =>
      rw [hd] at hv
      cases l with
      | nil => simp at hv
      | cons img rest =>
          simp only [Option.some.injEq] at hv
          rw [← hv]

/-- One step of the run: `recvRun` on a nonempty frame list is the
current call's output prepended to the run from the successor state. -/
theorem recvRun_cons (decode : Frame → Except Unit (List RawImage)) (tr : TrackState)
    (j : Frame) (js : List Frame) :
    recvRun decode tr (j :: js) =
      ((recv decode tr j).1.toList ++ (recvRun decode (recv decode tr j).2 js).1,
       (recvRun decode (recv decode tr j).2 js).2) := rfl

/-- The clock value issued right after one `next_timestamp` call is one
fixed increment above the value that call issued. -/
theorem next_timestamp_step (o : Option Nat) :
    (next_timestamp (next_timestamp o).2).1 = (next_timestamp o).1 + 1800 := by
  cases o <;> rfl

/-- Every frame produced anywhere in a run carries a timestamp at least
the one the first call of the run would issue. -/
theorem recvRun_pts_lb (decode : Frame → Except Unit (List RawImage)) (js : List Frame) :
    ∀ (tr : TrackState) (v : VideoFrame),
      v ∈ (recvRun decode tr js).1 → (next_timestamp tr.timestamp).1 ≤ v.pts := by
  induction js with
  | nil =>
      intro tr v hv
      simp [recvRun] at hv
  | cons j js ih =>
      intro tr v hv
      rw [recvRun_cons] at hv
      cases htr : tr.ended with
      | true =>
          rw [recv_ended decode tr j htr] at hv
          simp only [Option.toList_none, List.nil_append] at hv
          exact ih tr v hv
      | false =>
          have h2 := recv_snd_not_ended decode tr j htr
          have hstep : (next_timestamp tr.timestamp).1 ≤
              (next_timestamp (recv decode tr j).2.timestamp).1 := by
            rw [h2]
            show (next_timestamp tr.timestamp).1 ≤
              (next_timestamp (next_timestamp tr.timestamp).2).1
            rw [next_timestamp_step]
            omega
          rcases List.mem_append.mp hv with h1 | h1
          · cases hfst : (recv decode tr j).1 with
            | none => rw [hfst] at h1; simp at h1
            | some w =>
                rw [hfst] at h1
                simp only [Option.toList_some, List.mem_singleton] at h1
                subst h1
                exact le_of_eq (recv_produced_pts decode tr j v htr hfst).symm
          · exact le_trans hstep (ih (recv decode tr j).2 v h1)

/-- Across any run of `recv` calls on one track, the timestamps of the
frames actually produced form a strictly increasing sequence. -/
theorem recvRun_pts_strict_mono (decode : Frame → Except Unit (List RawImage))
    (js : List Frame) :
    ∀ tr : TrackState,
      List.Chain' (fun a b => a.pts < b.pts) (recvRun decode tr js).1 := by
  induction js with
  | nil => intro tr; simp [recvRun]
  | cons j js ih =>
      intro tr
      rw [recvRun_cons]
      cases htr : tr.ended with
      | true =>
          rw [recv_ended decode tr j htr]
          simpa using ih tr
      | false =>
          cases hfst : (recv decode tr j).1 with
          | none => simpa using ih (recv decode tr j).2
          | some v =>
              simp only [Option.toList_some, List.singleton_append]
              rw [List.chain'_cons']
              refine ⟨?_, ih (recv decode tr j).2⟩
              intro y hy
              have hym := List.mem_of_mem_head? hy
              have hlb := recvRun_pts_lb decode js (recv decode tr j).2 y hym
              have hpts := recv_produced_pts decode tr j v htr hfst
              rw [recv_snd_not_ended decode tr j htr] at hlb
              have hlb2 : (next_timestamp (next_timestamp tr.timestamp).2).1 ≤ y.pts := hlb
              rw [next_timestamp_step] at hlb2
              omega

/-- C6: for a single Media-Track Adapter instance, the presentation
timestamps carried by successively produced frames are strictly
increasing, for every sequence of upstream frames and every decode
behaviour (gaps — `None` cycles — included). -/
theorem track_pts_strict_mono (decode : Frame → Except Unit (List RawImage))
    (js : List Frame) :
    List.Chain' (fun a b => a.pts < b.pts) (recvRun decode trackInit js).1 :=
  recvRun_pts_strict_mono decode js trackInit

/-- C7: a `recv` whose decode raises produces no frame for that cycle —
without propagating the exception (`recv` is total) — and the next pull
proceeds independently: with a decodable payload it produces a frame. -/
theorem recv_decode_failure_nonfatal (decode decode2 : Frame → Except Unit (List RawImage))
    (tr : TrackState) (j j2 : Frame) (img : RawImage) (rest : List RawImage)
    (h : tr.ended = false) (hfail : decode j = Except.error ())
    (hok : decode2 j2 = Except.ok (img :: rest)) :
    (recv decode tr j).1 = none ∧
    (recv decode2 (recv decode tr j).2 j2).1 =
      some { image := img, pts := (next_timestamp (next_timestamp tr.timestamp).2).1 } := by
  refine ⟨by simp [recv, h, hfail], ?_⟩
  rw [recv_snd_not_ended decode tr j h]
  simp [recv, h, hok]

/-- Witness for C7: a fresh track, one undecodable payload, then one
decodable payload yielding image 7 at the next clock value. -/
theorem recv_decode_failure_nonfatal_witness :
    (recv (fun _ => Except.error ()) trackInit [0]).1 = none ∧
    (recv (fun _ => Except.ok [7]) (recv (fun _ => Except.error ()) trackInit [0]).2 [1]).1 =
      some { image := 7,
             pts := (next_timestamp (next_timestamp trackInit.timestamp).2).1 } :=
  recv_decode_failure_nonfatal (fun _ => Except.error ()) (fun _ => Except.ok [7])
    trackInit [0] [1] 7 [] rfl rfl rfl
